import Mathlib

/-!
Shallow embedding of `src/wpactrl.rs` (crate `wpa-ctrl-rs`): a Rust client
for the wpa_supplicant / hostapd control socket.  The external C transport
(`wpa_ctrl_open2`, `wpa_ctrl_request`, `wpa_ctrl_close`, `wpa_ctrl_pending`,
`wpa_ctrl_recv`) is an external collaborator, not part of this repository;
each wrapper function is therefore parametrised by the outcome the transport
produces at that single call (status code, declared reply bytes, out-of-band
events observed while waiting).  Side effects that matter to the claims -
which handles get closed, and which callback a message is delivered to -
are returned explicitly as data.
-/

deriving instance DecidableEq for Except

namespace Wpa

/-- Raw bytes, as they cross the FFI boundary (`*mut c_char` buffers). -/
abbrev Bytes := List Nat

/-- The fixed receive-buffer capacity: both `request_helper` and `recv`
allocate `Vec::with_capacity(10240)` and pass `res_len = 10240`. -/
def BUF_CAP : Nat := 10240

/-- The `WpaError` enum of `src/wpactrl.rs` (lines 13-23). -/
inductive WpaError
  | Failure
  | Interface
  | Timeout
  | Unknown (code : Int)
  deriving DecidableEq

/-- The error type of the crate's `Result<T>` is `failure::Error`, which at
the call sites of this file wraps exactly one of: a `WpaError`, a
`FromUtf8Error`/`Utf8Error` (from `String::from_utf8` / `str::from_utf8`),
or a `NulError` (from `CString::new` on text with an embedded NUL). -/
inductive CallError
  | wpaErr (e : WpaError)
  | decodeErr
  | nulErr
  deriving DecidableEq

/-- For a leading UTF-8 byte, the admissible ranges of the continuation
bytes that must follow it (`none` for an illegal leading byte).  This is
the standard strict table: it rejects overlong forms, surrogates, and code
points above U+10FFFF, exactly as Rust's `String::from_utf8` does. -/
def utf8Need (b : Nat) : Option (List (Nat × Nat)) :=
  if b < 0x80 then some []
  else if b < 0xC2 then none
  else if b ≤ 0xDF then some [(0x80, 0xBF)]
  else if b = 0xE0 then some [(0xA0, 0xBF), (0x80, 0xBF)]
  else if b = 0xED then some [(0x80, 0x9F), (0x80, 0xBF)]
  else if b ≤ 0xEF then some [(0x80, 0xBF), (0x80, 0xBF)]
  else if b = 0xF0 then some [(0x90, 0xBF), (0x80, 0xBF), (0x80, 0xBF)]
  else if b ≤ 0xF3 then some [(0x80, 0xBF), (0x80, 0xBF), (0x80, 0xBF)]
  else if b = 0xF4 then some [(0x80, 0x8F), (0x80, 0xBF), (0x80, 0xBF)]
  else none

/-- Byte automaton for strict UTF-8 validity: `need` is the list of ranges
the next bytes must fall in to finish the current multi-byte sequence. -/
def validUtf8From : List (Nat × Nat) → Bytes → Bool
  | [], [] => true
  | [], b :: rest =>
    match utf8Need b with
    | none => false
    | some need => validUtf8From need rest
  | _ :: _, [] => false
  | (lo, hi) :: need, b :: rest =>
    (lo ≤ b && b ≤ hi) && validUtf8From need rest

/-- Strict UTF-8 validity of a byte sequence, exactly the check performed
by Rust's `String::from_utf8` / `str::from_utf8`. -/
def validUtf8 (l : Bytes) : Bool := validUtf8From [] l

/-- Whether `CString::new` on this text fails: true iff the string contains
an embedded NUL character. -/
def hasNulByte (s : String) : Bool := s.toList.any fun c => c == Char.ofNat 0

/-- The reply bytes `"OK\n"` that `attach` and `detach` require. -/
def okReply : Bytes := [79, 75, 10]

/-- Outcome of one invocation of the external primitive `wpa_ctrl_request`.
`status` is the returned `c_int`; `reply` is the full reply the daemon
produced (the primitive writes `min (reply.length) BUF_CAP` bytes into the
caller's buffer and stores that count through `reply_len` - the transport
truncates to the capacity it was handed, modelled from the spec's transport
contract since the C library is outside this repository); `events` are the
out-of-band messages the transport observes while waiting, each of which it
hands to `msg_cb` when a callback pointer was passed. -/
structure ReqOutcome where
  status : Int
  reply : Bytes
  events : List Bytes
  deriving DecidableEq

/-- Outcome of one invocation of the external primitive `wpa_ctrl_recv`:
status code and the full event message the daemon produced (truncated by
the primitive to the capacity it was handed, as for `wpa_ctrl_request`). -/
structure RecvOutcome where
  status : Int
  reply : Bytes
  deriving DecidableEq

/-- Embeds `request_helper` (src/wpactrl.rs lines 63-89): build the command
C-string (fails with `NulError` on embedded NUL), call `wpa_ctrl_request`
with a 10240-byte buffer, then map the status: on `0`, `set_len` to the
reported length and decode with `String::from_utf8`; `-1` is `Failure`,
`-2` is `Timeout`, anything else is `Unknown(x)`.  The successful result is
kept as its byte sequence (a Rust `String` is exactly its UTF-8 bytes). -/
def request_helper (o : ReqOutcome) (cmd : String) : Except CallError Bytes :=
  if hasNulByte cmd then .error .nulErr
  else if o.status = 0 then
    let res_len := min o.reply.length BUF_CAP
    let res := o.reply.take res_len
    if validUtf8 res then .ok res else .error .decodeErr
  else if o.status = -1 then .error (.wpaErr .Failure)
  else if o.status = -2 then .error (.wpaErr .Timeout)
  else .error (.wpaErr (.Unknown o.status))

/-- `WpaCtrl` (Detached connection): owns the raw handle, here an opaque id. -/
structure WpaCtrl where
  handle : Nat
  deriving DecidableEq

/-- `WpaCtrlAttached` (Attached connection): owns the same raw handle. -/
structure WpaCtrlAttached where
  handle : Nat
  deriving DecidableEq

/-- Drop glue of `impl Drop for WpaCtrl`: one `wpa_ctrl_close(self.0)`.
The result lists the handles passed to `wpa_ctrl_close`. -/
def WpaCtrl.drop (c : WpaCtrl) : List Nat := [c.handle]

/-- Drop glue of `impl Drop for WpaCtrlAttached`: one `wpa_ctrl_close(self.0)`. -/
def WpaCtrlAttached.drop (a : WpaCtrlAttached) : List Nat := [a.handle]

/-- Embeds `WpaCtrl::attach` (lines 166-174), drop glue included.  `attach`
takes `self` by value; on the `?`-propagated error and on the
reply-mismatch error the consumed `self` is dropped at end of scope, so its
`Drop` impl closes the handle; on success `std::mem::forget(self)` suppresses
the drop and the handle moves into the returned `WpaCtrlAttached`.  The
second component lists the handles `wpa_ctrl_close` was called on during
the whole call. -/
def WpaCtrl.attach (c : WpaCtrl) (o : ReqOutcome) :
    Except CallError WpaCtrlAttached × List Nat :=
  match request_helper o "ATTACH" with
  | .error e => (.error e, c.drop)
  | .ok r =>
    if r ≠ okReply then (.error (.wpaErr .Failure), c.drop)
    else (.ok ⟨c.handle⟩, [])

/-- Embeds `WpaCtrlAttached::detach` (lines 210-218), symmetric to `attach`:
issues `"DETACH"`, requires the reply `"OK\n"`, `mem::forget`s `self` on
success; on either error path the consumed `self` is dropped, closing the
handle. -/
def WpaCtrlAttached.detach (a : WpaCtrlAttached) (o : ReqOutcome) :
    Except CallError WpaCtrl × List Nat :=
  match request_helper o "DETACH" with
  | .error e => (.error e, a.drop)
  | .ok r =>
    if r ≠ okReply then (.error (.wpaErr .Failure), a.drop)
    else (.ok ⟨a.handle⟩, [])

/-- Embeds `WpaCtrlAttached::pending` (lines 228-235), parametrised by the
status `wpa_ctrl_pending(self.0)` returned: `0` is no pending message,
`1` is pending, `-1` is `Failure`, anything else `Unknown(x)`. -/
def WpaCtrlAttached.pending (_a : WpaCtrlAttached) (s : Int) :
    Except CallError Bool :=
  if s = 0 then .ok false
  else if s = 1 then .ok true
  else if s = -1 then .error (.wpaErr .Failure)
  else .error (.wpaErr (.Unknown s))

/-- Embeds `WpaCtrlAttached::recv` (lines 247-260): 10240-byte buffer, call
`wpa_ctrl_recv`; on `0`, `set_len` to the reported length and decode with
`String::from_utf8`; `-1` is `Failure`, anything else `Unknown(x)` (there
is no `-2` timeout arm here). -/
def WpaCtrlAttached.recv (_a : WpaCtrlAttached) (o : RecvOutcome) :
    Except CallError Bytes :=
  if o.status = 0 then
    let res_len := min o.reply.length BUF_CAP
    let res := o.reply.take res_len
    if validUtf8 res then .ok res else .error .decodeErr
  else if o.status = -1 then .error (.wpaErr .Failure)
  else .error (.wpaErr (.Unknown o.status))

/-- Identity of a message-callback closure: either the no-op closure the
global slot is initialised with, or a caller-supplied callback (tagged by
an id, since only identity matters for where messages end up). -/
inductive CbTarget
  | noop
  | user (id : Nat)
  deriving DecidableEq

/-- The `lazy_static` global `CALLBACK : Mutex<RefCell<Box<FnMut ...>>>`
(lines 43-45) starts out holding the no-op closure `|_| ()`.  No statement
anywhere in `src/wpactrl.rs` ever stores another closure into it, so this
is its content whenever the wrapped C callback runs. -/
def CALLBACK : CbTarget := .noop

/-- Embeds `request_cb` (lines 47-60): returns whether a C callback pointer
(the `wrapped` function) is passed to `wpa_ctrl_request` - `Some(wrapped)`
exactly when a caller callback was supplied. -/
def request_cb (f : Option Nat) : Bool := f.isSome

/-- Embeds the body of `wrapped` inside `request_cb`: locks the global
`CALLBACK` slot and invokes whatever closure it currently holds on the
`str::from_utf8` decoding of the message bytes.  The result records which
closure received which (decoded) message. -/
def wrappedDeliver (slot : CbTarget) (msg : Bytes) :
    CbTarget × Except CallError Bytes :=
  (slot, if validUtf8 msg then .ok msg else .error .decodeErr)

/-- Embeds `WpaCtrlAttached::request` (lines 262-264): runs
`request_helper(self.0, cmd, Some(cb))`.  `slot` is the content of the
global `CALLBACK` mutex during the call (`Wpa.CALLBACK`, i.e. the no-op,
in any run of this crate); `cb` is the id of the caller-supplied callback.
The second component records the deliveries the transport performs through
the passed C callback pointer: one per out-of-band event, each handed to
the closure stored in the global slot (no transport call happens when
`CString::new` fails first). -/
def WpaCtrlAttached.request (_a : WpaCtrlAttached) (slot : CbTarget)
    (o : ReqOutcome) (cmd : String) (cb : Nat) :
    Except CallError Bytes × List (CbTarget × Except CallError Bytes) :=
  (request_helper o cmd,
   if hasNulByte cmd then []
   else if request_cb (some cb) then o.events.map (wrappedDeliver slot)
   else [])

/-- `WpaCtrlBuilder` (lines 92-96): optional client and control socket
paths, both defaulting to `None` (`#[derive(Default)]`). -/
structure WpaCtrlBuilder where
  cli_path : Option String
  ctrl_path : Option String

/-- The hardwired default control path used by `WpaCtrlBuilder::open` when
no `ctrl_path` was configured (line 126). -/
def defaultCtrlPath : String := "/var/run/wpa_supplicant/wlan0"

/-- Embeds `WpaCtrlBuilder::open` (lines 125-141), parametrised by the
external primitive `wpa_ctrl_open2` as an oracle from (control path,
optional client path) to an optional handle (`none` models a null return).
The control path defaults to `defaultCtrlPath`; a missing client path is
passed as a null pointer (`none`); `CString::new` on either path fails
with `NulError` before the primitive is called.  The second component
records the argument pair actually passed to the primitive (or `none` when
it was never called), and a null handle becomes the `Interface` error. -/
def WpaCtrlBuilder.openConn (b : WpaCtrlBuilder)
    (prim : String → Option String → Option Nat) :
    Except CallError WpaCtrl × Option (String × Option String) :=
  let ctrlPath := b.ctrl_path.getD defaultCtrlPath
  if hasNulByte ctrlPath then (.error .nulErr, none)
  else
    match b.cli_path with
    | some p =>
      if hasNulByte p then (.error .nulErr, none)
      else
        match prim ctrlPath (some p) with
        | none => (.error (.wpaErr .Interface), some (ctrlPath, some p))
        | some h => (.ok ⟨h⟩, some (ctrlPath, some p))
    | none =>
      match prim ctrlPath none with
      | none => (.error (.wpaErr .Interface), some (ctrlPath, none))
      | some h => (.ok ⟨h⟩, some (ctrlPath, none))

/-- State of the one live connection value over its lifetime: the Detached
variant, the Attached variant, or no live owner at all (after a failed
`attach`/`detach` consumed the value and its drop already ran). -/
inductive ConnState
  | det (c : WpaCtrl)
  | att (a : WpaCtrlAttached)
  | gone
  deriving DecidableEq

/-- One state transition of the live value: `attach` when Detached,
`detach` when Attached (the only transitions the types permit), driven by
the transport outcome of that call.  Returns the new state and the handles
closed during the call. -/
def stepConn : ConnState → ReqOutcome → ConnState × List Nat
  | .det c, o =>
    match c.attach o with
    | (.ok a, cl) => (.att a, cl)
    | (.error _, cl) => (.gone, cl)
  | .att a, o =>
    match a.detach o with
    | (.ok c, cl) => (.det c, cl)
    | (.error _, cl) => (.gone, cl)
  | .gone, _ => (.gone, [])

/-- Runs a sequence of alternating `attach`/`detach` transitions,
accumulating every handle passed to `wpa_ctrl_close`. -/
def runSteps : ConnState → List ReqOutcome → ConnState × List Nat
  | s, [] => (s, [])
  | s, o :: os =>
    let p := stepConn s o
    let q := runSteps p.1 os
    (q.1, p.2 ++ q.2)

/-- Drop glue of whichever variant is live when the value goes out of
scope at the end of its lifetime. -/
def finalDrop : ConnState → List Nat
  | .det c => c.drop
  | .att a => a.drop
  | .gone => []

/-- Every handle passed to `wpa_ctrl_close` over the whole lifetime of a
connection opened on handle `h`: the closes performed during the
transition calls, then the close performed by the final drop. -/
def lifetimeCloses (h : Nat) (outs : List ReqOutcome) : List Nat :=
  let p := runSteps (.det ⟨h⟩) outs
  p.2 ++ finalDrop p.1

/-- A transport outcome that makes an `attach` or `detach` transition
succeed: success status and the exact reply `"OK\n"`. -/
def okOutcome (o : ReqOutcome) : Prop := o.status = 0 ∧ o.reply = okReply

instance (o : ReqOutcome) : Decidable (okOutcome o) := by
  unfold okOutcome; infer_instance

lemma request_helper_okOutcome (o : ReqOutcome) (cmd : String)
    (hn : hasNulByte cmd = false) (h : okOutcome o) :
    request_helper o cmd = .ok okReply := by
  obtain ⟨h1, h2⟩ := h
  simp [request_helper, hn, h1, h2]
  decide

lemma attach_okOutcome (c : WpaCtrl) (o : ReqOutcome) (h : okOutcome o) :
    c.attach o = (.ok ⟨c.handle⟩, []) := by
  have hr := request_helper_okOutcome o "ATTACH" (by decide) h
  simp [WpaCtrl.attach, hr]

lemma detach_okOutcome (a : WpaCtrlAttached) (o : ReqOutcome) (h : okOutcome o) :
    a.detach o = (.ok ⟨a.handle⟩, []) := by
  have hr := request_helper_okOutcome o "DETACH" (by decide) h
  simp [WpaCtrlAttached.detach, hr]

lemma attach_succ (c : WpaCtrl) (o : ReqOutcome) (a : WpaCtrlAttached)
    (h : (c.attach o).1 = .ok a) : a = ⟨c.handle⟩ := by
  unfold WpaCtrl.attach at h
  rcases hr : request_helper o "ATTACH" with e | r <;> rw [hr] at h
  · cases h
  · by_cases hok : r = okReply
    · simp [hok] at h
      exact h.symm
    · simp [hok] at h

lemma detach_succ (a : WpaCtrlAttached) (o : ReqOutcome) (c : WpaCtrl)
    (h : (a.detach o).1 = .ok c) : c = ⟨a.handle⟩ := by
  unfold WpaCtrlAttached.detach at h
  rcases hr : request_helper o "DETACH" with e | r <;> rw [hr] at h
  · cases h
  · by_cases hok : r = okReply
    · simp [hok] at h
      exact h.symm
    · simp [hok] at h

lemma validUtf8_cons_lt (b : Nat) (hb : b < 128) (l : Bytes) :
    validUtf8 (b :: l) = validUtf8 l := by
  cases l <;> simp [validUtf8, validUtf8From, utf8Need, hb]

lemma validUtf8_replicate (a : Nat) (ha : a < 128) (n : Nat) :
    validUtf8 (List.replicate n a) = true := by
  induction n with
  | zero => rfl
  | succ k ih => rw [List.replicate_succ, validUtf8_cons_lt a ha]; exact ih

lemma request_helper_status0 (st : Int) (rep : Bytes) (evs : List Bytes)
    (cmd : String) (hn : hasNulByte cmd = false) (h0 : st = 0)
    (hv : validUtf8 (rep.take (min rep.length BUF_CAP)) = true) :
    request_helper ⟨st, rep, evs⟩ cmd
      = .ok (rep.take (min rep.length BUF_CAP)) := by
  subst h0
  simp [request_helper, hn, hv]

lemma recv_status0 (st : Int) (rep : Bytes) (a : WpaCtrlAttached)
    (h0 : st = 0)
    (hv : validUtf8 (rep.take (min rep.length BUF_CAP)) = true) :
    a.recv ⟨st, rep⟩ = .ok (rep.take (min rep.length BUF_CAP)) := by
  subst h0
  simp [WpaCtrlAttached.recv, hv]

lemma take_replicate_10241 :
    (List.replicate 10241 (65 : Nat)).take
        (min (List.replicate 10241 (65 : Nat)).length BUF_CAP)
      = List.replicate 10240 65 := by
  have h1 : min (10241 : Nat) BUF_CAP = 10240 := by unfold BUF_CAP; omega
  have h2 : min (10240 : Nat) 10241 = 10240 := by omega
  rw [List.length_replicate, h1, List.take_replicate, h2]

lemma take_replicate_10240 :
    (List.replicate 10240 (66 : Nat)).take
        (min (List.replicate 10240 (66 : Nat)).length BUF_CAP)
      = List.replicate 10240 66 := by
  have h1 : min (10240 : Nat) BUF_CAP = 10240 := by unfold BUF_CAP; omega
  have h2 : min (10240 : Nat) 10240 = 10240 := by omega
  rw [List.length_replicate, h1, List.take_replicate, h2]

lemma request_helper_boundary :
    request_helper ⟨0, List.replicate 10241 65, []⟩ "PING"
      = .ok (List.replicate 10240 65) := by
  have hn : hasNulByte "PING" = false := by decide
  have hv : validUtf8 ((List.replicate 10241 (65 : Nat)).take
      (min (List.replicate 10241 (65 : Nat)).length BUF_CAP)) = true := by
    rw [take_replicate_10241]; exact validUtf8_replicate 65 (by norm_num) 10240
  have h := request_helper_status0 0 (List.replicate 10241 65) [] "PING" hn rfl hv
  rw [take_replicate_10241] at h
  exact h

lemma recv_boundary :
    WpaCtrlAttached.recv ⟨5⟩ ⟨0, List.replicate 10240 66⟩
      = .ok (List.replicate 10240 66) := by
  have hv : validUtf8 ((List.replicate 10240 (66 : Nat)).take
      (min (List.replicate 10240 (66 : Nat)).length BUF_CAP)) = true := by
    rw [take_replicate_10240]; exact validUtf8_replicate 66 (by norm_num) 10240
  have h := recv_status0 0 (List.replicate 10240 66) ⟨5⟩ rfl hv
  rw [take_replicate_10240] at h
  exact h

lemma request_helper_failReply :
    request_helper ⟨0, [70, 65, 73, 76, 10], []⟩ "ATTACH"
      = .ok [70, 65, 73, 76, 10] := by decide

lemma runSteps_okOutcome (outs : List ReqOutcome) :
    ∀ (s : ConnState) (h : Nat), (s = .det ⟨h⟩ ∨ s = .att ⟨h⟩) →
    (∀ o ∈ outs, okOutcome o) →
    (runSteps s outs).2 = [] ∧
    ((runSteps s outs).1 = .det ⟨h⟩ ∨ (runSteps s outs).1 = .att ⟨h⟩) := by
  induction outs with
  | nil =>
    intro s h hs _
    simpa [runSteps] using hs
  | cons o os ih =>
    intro s h hs hall
    have ho : okOutcome o := hall o (List.mem_cons_self o os)
    have hrest : ∀ o2 ∈ os, okOutcome o2 :=
      fun o2 hm => hall o2 (List.mem_cons_of_mem o hm)
    rcases hs with h1 | h1 <;> subst h1
    · have hstep : stepConn (.det ⟨h⟩) o = (.att ⟨h⟩, []) := by
        simp [stepConn, attach_okOutcome _ _ ho]
      have hih := ih (.att ⟨h⟩) h (Or.inr rfl) hrest
      constructor
      · simp [runSteps, hstep, hih.1]
      · simpa [runSteps, hstep] using hih.2
    · have hstep : stepConn (.att ⟨h⟩) o = (.det ⟨h⟩, []) := by
        simp [stepConn, detach_okOutcome _ _ ho]
      have hih := ih (.det ⟨h⟩) h (Or.inl rfl) hrest
      constructor
      · simp [runSteps, hstep, hih.1]
      · simpa [runSteps, hstep] using hih.2

/-- C1: `attach()` consumes a Detached connection, sends the literal
command `"ATTACH"` through the request engine, and succeeds producing an
Attached connection owning the same underlying handle if and only if the
reply equals exactly the three-character string `"OK\n"`; for every other
reply it fails with `Failure`. -/
theorem attach_reply_iff (o : ReqOutcome) (c : WpaCtrl) :
    ((∃ a, (c.attach o).1 = .ok a) ↔ request_helper o "ATTACH" = .ok okReply) ∧
    (∀ a, (c.attach o).1 = .ok a → a.handle = c.handle ∧ (c.attach o).2 = []) ∧
    (∀ r, request_helper o "ATTACH" = .ok r → r ≠ okReply →
      (c.attach o).1 = .error (.wpaErr .Failure)) := by
  rcases hr : request_helper o "ATTACH" with e | r
  · have hA : c.attach o = (.error e, [c.handle]) := by
      simp [WpaCtrl.attach, WpaCtrl.drop, hr]
    refine ⟨?_, ?_, ?_⟩
    · simp [hA]
    · intro a ha; simp [hA] at ha
    · intro r2 hr2; simp at hr2
  · by_cases hok : r = okReply
    · subst hok
      have hA : c.attach o = (.ok ⟨c.handle⟩, []) := by
        simp [WpaCtrl.attach, hr]
      refine ⟨?_, ?_, ?_⟩
      · simp [hA]
      · intro a ha
        simp only [hA, Except.ok.injEq] at ha
        subst ha
        simp [hA]
      · intro r2 hr2 hne
        simp only [Except.ok.injEq] at hr2
        subst hr2
        exact absurd rfl hne
    · have hA : c.attach o = (.error (.wpaErr .Failure), [c.handle]) := by
        simp [WpaCtrl.attach, WpaCtrl.drop, hr, hok]
      refine ⟨?_, ?_, ?_⟩
      · simp [hA, hok]
      · intro a ha; simp [hA] at ha
      · intro r2 hr2 hne
        simp [hA]

theorem attach_reply_iff_witness :
    request_helper ⟨0, [70, 65, 73, 76, 10], []⟩ "ATTACH"
      = .ok [70, 65, 73, 76, 10] ∧
    ([70, 65, 73, 76, 10] : Bytes) ≠ okReply ∧
    ((⟨9⟩ : WpaCtrl).attach ⟨0, [70, 65, 73, 76, 10], []⟩).1
      = .error (.wpaErr .Failure) :=
  ⟨request_helper_failReply, by decide,
   (attach_reply_iff ⟨0, [70, 65, 73, 76, 10], []⟩ ⟨9⟩).2.2 _
     request_helper_failReply (by decide)⟩

/-- C2 counterexample: on handle 5, an `attach` whose `"ATTACH"` request
completes with the reply `"FAIL\n"` fails with `Failure` but also calls
`wpa_ctrl_close` on the handle (the consumed receiver is dropped), so the
handle does not remain usable by the caller: the list of closed handles is
`[5]`, not empty as the claim requires. -/
theorem attach_failure_retains_handle_cex :
    WpaCtrl.attach ⟨5⟩ ⟨0, [70, 65, 73, 76, 10], []⟩
      = (.error (.wpaErr .Failure), [5]) ∧
    ([5] : List Nat) ≠ [] := by decide

/-- C2 (amended): for every `attach()` call whose `"ATTACH"` request
completes but returns a reply other than `"OK\n"`, the call fails with
`Failure`, and the consumed connection value is dropped by the failing
call, which closes the underlying handle exactly once: the handle is not
leaked and not double-closed, but it is no longer usable by the caller for
a retry or a later close. -/
theorem attach_failure_closes (o : ReqOutcome) (c : WpaCtrl) (r : Bytes)
    (h1 : request_helper o "ATTACH" = .ok r) (h2 : r ≠ okReply) :
    c.attach o = (.error (.wpaErr .Failure), [c.handle]) := by
  simp [WpaCtrl.attach, WpaCtrl.drop, h1, h2]

theorem attach_failure_closes_witness :
    request_helper ⟨0, [70, 65, 73, 76, 10], []⟩ "ATTACH"
      = .ok [70, 65, 73, 76, 10] ∧
    ([70, 65, 73, 76, 10] : Bytes) ≠ okReply ∧
    WpaCtrl.attach ⟨7⟩ ⟨0, [70, 65, 73, 76, 10], []⟩
      = (.error (.wpaErr .Failure), [7]) :=
  ⟨request_helper_failReply, by decide,
   attach_failure_closes ⟨0, [70, 65, 73, 76, 10], []⟩ ⟨7⟩ _
     request_helper_failReply (by decide)⟩

/-- C3: over the whole lifetime of a connection opened on handle `h` -
any sequence of successful `attach()`/`detach()` transitions followed by
the final drop of whichever variant is live - `wpa_ctrl_close` is called
exactly once, on `h`: ownership of the raw handle moves with each
transition, never dropped twice and never leaked. -/
theorem single_close_lifetime (h : Nat) (outs : List ReqOutcome)
    (hall : ∀ o ∈ outs, okOutcome o) :
    lifetimeCloses h outs = [h] := by
  have hmain := runSteps_okOutcome outs (.det ⟨h⟩) h (Or.inl rfl) hall
  unfold lifetimeCloses
  rcases hmain.2 with h1 | h1 <;>
    simp [h1, hmain.1, finalDrop, WpaCtrl.drop, WpaCtrlAttached.drop]

theorem single_close_lifetime_witness :
    (∀ o ∈ [(⟨0, okReply, []⟩ : ReqOutcome), ⟨0, okReply, []⟩], okOutcome o) ∧
    lifetimeCloses 5 [⟨0, okReply, []⟩, ⟨0, okReply, []⟩] = [5] :=
  ⟨by decide, single_close_lifetime 5 _ (by decide)⟩

/-- C4 (code bug): during a `WpaCtrlAttached::request` call that supplies
a message callback, an out-of-band event observed by the transport is
delivered to the closure currently stored in the global `CALLBACK` slot -
still the initial no-op, because no code in the crate ever stores the
supplied callback into that slot - and not to the supplied callback.
Evaluated at the failing input: handle 5, command `"PING"`, supplied
callback `user 0`, one event `"A"`: the delivery goes to `noop`, which is
not the supplied `user 0`. -/
theorem callback_misses_supplied_cb :
    (WpaCtrlAttached.request ⟨5⟩ CALLBACK ⟨0, [79, 75, 10], [[65]]⟩
        "PING" 0).2
      = [(CbTarget.noop, .ok [65])] ∧
    (CbTarget.noop : CbTarget) ≠ CbTarget.user 0 := by decide

/-- C5 counterexample: a request whose transport status is `0` but whose
reply bytes `[0xFF]` are not valid UTF-8 does not yield success with the
truncated reply buffer (here `[0xFF]`); it yields the decode error.  So
"0 yields success" does not hold unconditionally. -/
theorem request_status_zero_cex :
    request_helper ⟨0, [255], []⟩ "PING" = .error .decodeErr ∧
    request_helper ⟨0, [255], []⟩ "PING" ≠ .ok [255] := by decide

/-- C5 (amended): for every request call (with a NUL-free command, so the
transport is actually invoked), the status is mapped exactly as: `0`
yields success with the reply buffer truncated to the length the
transport reports provided those bytes are valid UTF-8 (otherwise the
decode error); `-1` yields `Failure`; `-2` yields `Timeout`; and any
other non-zero code `c` yields `Unknown c` with the code carried
verbatim.  No status is retried internally: the embedding consumes
exactly one transport outcome per call. -/
theorem request_status_mapping (o : ReqOutcome) (cmd : String)
    (hn : hasNulByte cmd = false) :
    (o.status = 0 → validUtf8 (o.reply.take (min o.reply.length BUF_CAP)) = true →
      request_helper o cmd = .ok (o.reply.take (min o.reply.length BUF_CAP))) ∧
    (o.status = 0 → validUtf8 (o.reply.take (min o.reply.length BUF_CAP)) = false →
      request_helper o cmd = .error .decodeErr) ∧
    (o.status = -1 → request_helper o cmd = .error (.wpaErr .Failure)) ∧
    (o.status = -2 → request_helper o cmd = .error (.wpaErr .Timeout)) ∧
    (o.status ≠ 0 → o.status ≠ -1 → o.status ≠ -2 →
      request_helper o cmd = .error (.wpaErr (.Unknown o.status))) := by
  refine ⟨?_, ?_, ?_, ?_, ?_⟩
  · intro h0 hv; simp [request_helper, hn, h0, hv]
  · intro h0 hv; simp [request_helper, hn, h0, hv]
  · intro h1; simp [request_helper, hn, h1]
  · intro h2; simp [request_helper, hn, h2]
  · intro h0 h1 h2; simp [request_helper, hn, h0, h1, h2]

theorem request_status_mapping_witness :
    hasNulByte "PING" = false ∧
    request_helper ⟨-2, [], []⟩ "PING" = .error (.wpaErr .Timeout) :=
  ⟨by decide,
   (request_status_mapping ⟨-2, [], []⟩ "PING" (by decide)).2.2.2.1 rfl⟩

/-- C6: for every Detached connection `c` on which `attach()` succeeds and
`detach()` on the result also succeeds, `detach(attach(c))` yields a
Detached connection equal to `c`: it owns the same underlying transport
handle (and, being a value of the same `WpaCtrl` type, exposes the same
set of available operations). -/
theorem attach_detach_roundtrip (o1 o2 : ReqOutcome) (c : WpaCtrl)
    (a : WpaCtrlAttached) (c2 : WpaCtrl)
    (h1 : (c.attach o1).1 = .ok a) (h2 : (a.detach o2).1 = .ok c2) :
    c2 = c := by
  have ha := attach_succ c o1 a h1
  have hc := detach_succ a o2 c2 h2
  cases c
  rw [hc, ha]

theorem attach_detach_roundtrip_witness :
    ((⟨5⟩ : WpaCtrl).attach ⟨0, okReply, []⟩).1
      = .ok (⟨5⟩ : WpaCtrlAttached) ∧
    ((⟨5⟩ : WpaCtrlAttached).detach ⟨0, okReply, []⟩).1
      = .ok (⟨5⟩ : WpaCtrl) ∧
    (⟨5⟩ : WpaCtrl) = ⟨5⟩ :=
  ⟨by decide, by decide,
   attach_detach_roundtrip ⟨0, okReply, []⟩ ⟨0, okReply, []⟩ ⟨5⟩ ⟨5⟩ ⟨5⟩
     (by decide) (by decide)⟩

/-- C7: both `request_helper` and `recv` use the fixed 10240-byte receive
buffer (`BUF_CAP`) and truncate the successful reply to the length the
transport reports, which is at most the capacity: every successful reply
has length `min (declared length) 10240`, hence never more than 10240
bytes - a declared length beyond the capacity cannot overflow the buffer
(the boundary cases 10240 and 10241 are checked in the witness). -/
theorem reply_buffer_bound :
    (∀ (o : ReqOutcome) (cmd : String) (s : Bytes),
      request_helper o cmd = .ok s →
      s.length = min o.reply.length BUF_CAP ∧ s.length ≤ BUF_CAP) ∧
    (∀ (a : WpaCtrlAttached) (o : RecvOutcome) (s : Bytes),
      a.recv o = .ok s →
      s.length = min o.reply.length BUF_CAP ∧ s.length ≤ BUF_CAP) := by
  constructor
  · intro o cmd s h
    simp only [request_helper] at h
    split at h
    · cases h
    · split at h
      · split at h
        · simp only [Except.ok.injEq] at h
          subst h
          rw [List.length_take]
          omega
        · cases h
      · split at h
        · cases h
        · split at h
          · cases h
          · cases h
  · intro a o s h
    simp only [WpaCtrlAttached.recv] at h
    split at h
    · split at h
      · simp only [Except.ok.injEq] at h
        subst h
        rw [List.length_take]
        omega
      · cases h
    · split at h
      · cases h
      · cases h

theorem reply_buffer_bound_witness :
    request_helper ⟨0, List.replicate 10241 65, []⟩ "PING"
      = .ok (List.replicate 10240 65) ∧
    ((List.replicate 10240 (65 : Nat)).length
        = min (List.replicate 10241 (65 : Nat)).length BUF_CAP ∧
      (List.replicate 10240 (65 : Nat)).length ≤ BUF_CAP) ∧
    WpaCtrlAttached.recv ⟨5⟩ ⟨0, List.replicate 10240 66⟩
      = .ok (List.replicate 10240 66) ∧
    ((List.replicate 10240 (66 : Nat)).length
        = min (List.replicate 10240 (66 : Nat)).length BUF_CAP ∧
      (List.replicate 10240 (66 : Nat)).length ≤ BUF_CAP) :=
  ⟨request_helper_boundary,
   reply_buffer_bound.1 ⟨0, List.replicate 10241 65, []⟩ "PING" _
     request_helper_boundary,
   recv_boundary,
   reply_buffer_bound.2 ⟨5⟩ ⟨0, List.replicate 10240 66⟩ _ recv_boundary⟩

/-- C8: for every `request` or `recv` call whose transport status is
success but whose (truncated) reply bytes are not valid UTF-8, the call
fails with the decode error - the embedding is a total function, so it
never panics, and it never returns any string for such bytes. -/
theorem invalid_utf8_decode_error :
    (∀ (o : ReqOutcome) (cmd : String), hasNulByte cmd = false →
      o.status = 0 →
      validUtf8 (o.reply.take (min o.reply.length BUF_CAP)) = false →
      request_helper o cmd = .error .decodeErr) ∧
    (∀ (a : WpaCtrlAttached) (o : RecvOutcome), o.status = 0 →
      validUtf8 (o.reply.take (min o.reply.length BUF_CAP)) = false →
      a.recv o = .error .decodeErr) := by
  constructor
  · intro o cmd hn h0 hv
    simp [request_helper, hn, h0, hv]
  · intro a o h0 hv
    simp [WpaCtrlAttached.recv, h0, hv]

theorem invalid_utf8_decode_error_witness :
    hasNulByte "PING" = false ∧
    request_helper ⟨0, [255], []⟩ "PING" = .error .decodeErr ∧
    WpaCtrlAttached.recv ⟨5⟩ ⟨0, [255]⟩ = .error .decodeErr :=
  ⟨by decide,
   invalid_utf8_decode_error.1 ⟨0, [255], []⟩ "PING" (by decide) rfl (by decide),
   invalid_utf8_decode_error.2 ⟨5⟩ ⟨0, [255]⟩ rfl (by decide)⟩

/-- C9: on an Attached connection with no event message queued (so the
`wpa_ctrl_pending` status is not `1`), `pending()` returns `false` when
the status is `0`, and `recv()` in that state fails with `Failure` when
its status is `-1` - surfaced as error results of total functions, never
a panic; any other non-zero status from either call yields `Unknown`
carrying the code. -/
theorem pending_recv_mapping (a : WpaCtrlAttached) (s : Int)
    (o : RecvOutcome) (hq : s ≠ 1) :
    (s = 0 → a.pending s = .ok false) ∧
    (s = -1 → a.pending s = .error (.wpaErr .Failure)) ∧
    (s ≠ 0 → s ≠ -1 → a.pending s = .error (.wpaErr (.Unknown s))) ∧
    (o.status = -1 → a.recv o = .error (.wpaErr .Failure)) ∧
    (o.status ≠ 0 → o.status ≠ -1 →
      a.recv o = .error (.wpaErr (.Unknown o.status))) := by
  refine ⟨?_, ?_, ?_, ?_, ?_⟩
  · intro h0; simp [WpaCtrlAttached.pending, h0]
  · intro h1; simp [WpaCtrlAttached.pending, h1]
  · intro h0 h1; simp [WpaCtrlAttached.pending, h0, hq, h1]
  · intro h1; simp [WpaCtrlAttached.recv, h1]
  · intro h0 h1; simp [WpaCtrlAttached.recv, h0, h1]

theorem pending_recv_mapping_witness :
    ((0 : Int) ≠ 1) ∧
    WpaCtrlAttached.pending ⟨5⟩ 0 = .ok false ∧
    WpaCtrlAttached.recv ⟨5⟩ ⟨-1, []⟩ = .error (.wpaErr .Failure) ∧
    WpaCtrlAttached.pending ⟨6⟩ (-3) = .error (.wpaErr (.Unknown (-3))) :=
  ⟨by decide,
   (pending_recv_mapping ⟨5⟩ 0 ⟨-1, []⟩ (by decide)).1 rfl,
   (pending_recv_mapping ⟨5⟩ 0 ⟨-1, []⟩ (by decide)).2.2.2.1 rfl,
   (pending_recv_mapping ⟨6⟩ (-3) ⟨-1, []⟩ (by decide)).2.2.1
     (by decide) (by decide)⟩

/-- C10: when `open()` is called on a builder with no control path
configured, the control path passed to `wpa_ctrl_open2` is exactly
`"/var/run/wpa_supplicant/wlan0"` (hardwired to interface wlan0), and
with no client path configured a null client path (`none`) is passed; a
null handle from the primitive yields the `Interface` error, and any
non-null handle `h` yields a Detached connection owning `h`. -/
theorem builder_open_default_path
    (prim : String → Option String → Option Nat) :
    (WpaCtrlBuilder.openConn ⟨none, none⟩ prim).2
      = some ("/var/run/wpa_supplicant/wlan0", none) ∧
    (prim "/var/run/wpa_supplicant/wlan0" none = none →
      (WpaCtrlBuilder.openConn ⟨none, none⟩ prim).1
        = .error (.wpaErr .Interface)) ∧
    (∀ h, prim "/var/run/wpa_supplicant/wlan0" none = some h →
      (WpaCtrlBuilder.openConn ⟨none, none⟩ prim).1 = .ok ⟨h⟩) := by
  have hn : hasNulByte "/var/run/wpa_supplicant/wlan0" = false := by decide
  refine ⟨?_, ?_, ?_⟩
  · rcases hp : prim "/var/run/wpa_supplicant/wlan0" none with _ | h <;>
      simp [WpaCtrlBuilder.openConn, defaultCtrlPath, hn, hp]
  · intro hp
    simp [WpaCtrlBuilder.openConn, defaultCtrlPath, hn, hp]
  · intro h hp
    simp [WpaCtrlBuilder.openConn, defaultCtrlPath, hn, hp]

theorem builder_open_default_path_witness :
    (WpaCtrlBuilder.openConn ⟨none, none⟩ (fun _ _ => some 7)).2
      = some ("/var/run/wpa_supplicant/wlan0", none) ∧
    (WpaCtrlBuilder.openConn ⟨none, none⟩ (fun _ _ => some 7)).1
      = .ok ⟨7⟩ :=
  ⟨(builder_open_default_path (fun _ _ => some 7)).1,
   (builder_open_default_path (fun _ _ => some 7)).2.2 7 rfl⟩

end Wpa
